import Mathlib

/-
  Verification development for the MultiplayerSoccerGame repository
  (src/controllers/server_controller.py and
   src/controllers/robot_controller/robot_controller.py).

  The Python modules are shallowly embedded: pure computations become Lean
  functions, the mutable object state of SoccerRobot and the module-level
  state of the relay server become explicit records that every operation
  threads, Python float values are modelled as real numbers (rationals where
  the code only ever performs rational arithmetic), and fallible code
  (IndexError, KeyError, ValueError from float conversion) is modelled with
  Option results or an explicit success flag.
-/

namespace SoccerGame

open scoped Classical

/-! ## Modelling Python primitives -/

/-- Accumulates a run of decimal digit characters into a natural number.
Returns none as soon as a non-digit character appears, the way int/float
conversion in Python rejects strings holding non-digit characters. -/
def digitsToNat : List Char → Nat → Option Nat
  | [], acc => some acc
  | c :: cs, acc =>
      if c.isDigit then digitsToNat cs (acc * 10 + (c.toNat - 48)) else none

/-- Parses an unsigned decimal literal, an integer part optionally followed
by a dot and a fraction part, requiring at least one digit overall. -/
def pyFloatAux (l : List Char) : Option ℚ :=
  let ip := l.takeWhile (fun c => c != '.')
  let rest := l.dropWhile (fun c => c != '.')
  match rest with
  | [] =>
      match ip with
      | [] => none
      | _ => (digitsToNat ip 0).map (fun n => (n : ℚ))
  | _ :: frac =>
      if ip.isEmpty && frac.isEmpty then none
      else
        match digitsToNat ip 0, digitsToNat frac 0 with
        | some a, some b => some ((a : ℚ) + (b : ℚ) / ((10 : ℚ) ^ frac.length))
        | _, _ => none

/-- Models the Python builtin float conversion on the signed decimal
literals this program reads and writes (the agents format numbers with
three decimal digits); any other string is rejected, the way float raises
ValueError on a non-numeric field. -/
def pyFloat (s : String) : Option ℚ :=
  match s.toList with
  | '-' :: rest => (pyFloatAux rest).map (fun q => -q)
  | '+' :: rest => pyFloatAux rest
  | l => pyFloatAux l

/-- Splits a character list at every occurrence of the separator, keeping
empty pieces, the way the Python str.split method does with an explicit
single-character separator. -/
def pySplitAux (sep : Char) : List Char → List (List Char)
  | [] => [[]]
  | c :: cs =>
      let r := pySplitAux sep cs
      if c = sep then [] :: r
      else
        match r with
        | h :: t => (c :: h) :: t
        | [] => [[c]]

/-- Python str.split(sep) for a one-character separator; the result always
has at least one element. -/
def pySplit (s : String) (sep : Char) : List String :=
  (pySplitAux sep s.toList).map (fun l => String.mk l)

/-- Python dict assignment d[k] = v: overwrite the value when the key is
present, append a fresh entry otherwise. -/
def dictSet {β : Type} (l : List (String × β)) (k : String) (v : β) :
    List (String × β) :=
  if (l.lookup k).isSome then
    l.map (fun p => if p.1 = k then (k, v) else p)
  else l ++ [(k, v)]

/-! ## Relay server (server_controller.py) -/

/-- The module-level mutable state of the relay server: the clients dict
(player id to connection, a connection being an abstract handle) and the
two team sets. -/
structure ServerState where
  clients : List (String × Nat)
  team1 : Finset String
  team2 : Finset String
deriving DecidableEq

/-- The state of the relay server at module load: empty clients dict and
two empty team sets. -/
def initial_server_state : ServerState := ⟨[], ∅, ∅⟩

/-- handle_client_connection: registers the freshly generated player id in
the clients dict, adds it to team 1 when team 1 is strictly smaller than
team 2 and to team 2 otherwise, and returns the team number sent back in
the SETUP reply (the ADD broadcast carries the same pair). -/
def handle_client_connection (s : ServerState) (player_id : String)
    (conn : Nat) : ServerState × Nat :=
  let clients : List (String × Nat) := dictSet s.clients player_id conn
  if s.team1.card < s.team2.card then
    ({ clients := clients, team1 := insert player_id s.team1,
       team2 := s.team2 }, 1)
  else
    ({ clients := clients, team1 := s.team1,
       team2 := insert player_id s.team2 }, 2)

/-- handle_message on the server: splits the frame on the pipe character,
reads message_parts[0] and message_parts[1] unconditionally, then matches
the type tag; every branch including the default only prints. Returns
false exactly when the frame has fewer than two fields, in which case the
message_parts[1] access raises IndexError. -/
def server_handle_message (message : String) : Bool :=
  let parts := pySplit message '|'
  match parts.get? 1 with
  | none => false
  | some _ =>
      match parts.headI with
      | "ACK" => true
      | "MOVE" => true
      | "GOAL" => true
      | "KICK" => true
      | "GET" => true
      | _ => true

/-- The receive loop of handle_client_communication: processes frames in
order; when handling a frame raises, the except/finally blocks run, the
loop ends and the connection is closed. Returns the frames left
unprocessed when the loop ended early (empty when the stream was fully
consumed). -/
def handle_client_communication : List String → List String
  | [] => []
  | m :: rest =>
      if server_handle_message m then handle_client_communication rest
      else rest

/-- broadcast(message, sender): one sendall per clients entry whose id
differs from sender (a None sender matches no id, so everyone receives).
The result lists the (id, connection) pairs receiving the message, in
iteration order, one entry per delivery. -/
def broadcast (message : String) (clients : List (String × Nat))
    (sender : Option String) : List (String × Nat) :=
  clients.filter (fun p =>
    match sender with
    | none => true
    | some sid => p.1 != sid)

/-! ## Agent (robot_controller.py): state and message handling -/

/-- The motion files loaded by Nao.load_motion_files; each is a distinct
Motion object, so object equality coincides with this name equality. -/
inductive MotionName where
  | handWave | largeForwards | smallForwards | backwards | shoot
  | sideStepLeft | sideStepRight | standupFromFront | standupFromBack
  | turnLeft40 | turnLeft60 | turnRight40 | turnRight60 | turn180 | taiChi
deriving DecidableEq, Repr

/-- A motion intent issued to the Webots playback layer. -/
inductive Cmd where
  | play (m : MotionName)
  | stop (m : MotionName)
deriving DecidableEq, Repr

/-- The third slot of a player_states entry: initialised to the list
[0, 0, 0, 0] and overwritten with a single angle by update_rotation. -/
inductive RotVal where
  | initial
  | angle (a : ℝ)

/-- One entry of the player_states dict: [status, position, rotation]. -/
structure PlayerRec where
  status : Option String
  pos : ℝ × ℝ
  rot : RotVal

/-- The default state a newly registered peer receives on a later INFO
frame: [None, [0, 0], [0, 0, 0, 0]]. -/
def defaultPlayerRec : PlayerRec := ⟨none, (0, 0), RotVal.initial⟩

/-- The mutable fields of a SoccerRobot instance that the modelled
operations read or write. The socket handle, the unused action_queue and
the Webots device handles are not part of the model; sensor readings
(GPS position, yaw, motion isOver, clock) enter as explicit arguments. -/
structure AgentState where
  player_team : List (String × String)
  ball_position : ℝ × ℝ × ℝ
  player_states : List (String × PlayerRec)
  team_number : Option String
  player_id : Option String
  state : Option String
  role : Option String
  target_position : ℝ × ℝ
  target_rotation : ℝ × ℝ
  setup_time : ℝ
  start_time : ℝ
  last_position : ℝ × ℝ
  last_rotation : ℝ
  paused : Bool
  currentlyPlaying : Option MotionName

/-- The state established by SoccerRobot.__init__: empty registries, ball
at the origin, numeric identity fields holding the falsy integer 0
(modelled as none), no motion playing, paused. -/
def initial_agent_state : AgentState where
  player_team := []
  ball_position := (0, 0, 0)
  player_states := []
  team_number := none
  player_id := none
  state := none
  role := none
  target_position := (0, 0)
  target_rotation := (0, 0)
  setup_time := 0
  start_time := 0
  last_position := (0, 0)
  last_rotation := 0
  paused := true
  currentlyPlaying := none

/-- The Python comparison message_parts[1] != self.player_id, where
self.player_id is the falsy 0 until the first INFO frame (an int never
equals a string) and a string afterwards. -/
def pyTruthyNe (pid : String) (selfId : Option String) : Bool :=
  match selfId with
  | none => true
  | some q => pid != q

/-- update_position: player_states[player][1] = [x, y]. Raises KeyError
(modelled as none) when the player id is not a key of the dict. -/
def update_position (s : AgentState) (player : String) (x y : ℝ) :
    Option AgentState :=
  match s.player_states.lookup player with
  | some r =>
      some ({ s with
        player_states := dictSet s.player_states player ({ r with pos := (x, y) }) })
  | none => none

/-- update_rotation: player_states[player][2] = angle. Raises KeyError
(modelled as none) when the player id is not a key of the dict. -/
def update_rotation (s : AgentState) (player : String) (a : ℝ) :
    Option AgentState :=
  match s.player_states.lookup player with
  | some r =>
      some ({ s with
        player_states := dictSet s.player_states player ({ r with rot := RotVal.angle a }) })
  | none => none

/-- update_ball_position: writes the three components of ball_position. -/
def update_ball_position (s : AgentState) (x y z : ℝ) : AgentState :=
  { s with ball_position := (x, y, z) }

/-- The body of the POS branch of handle_message once the four fields have
parsed: skip self-referring updates, otherwise update position then
rotation of the named player. The Bool is false when a KeyError escaped
(unknown player id). -/
def handle_pos (s : AgentState) (pid : String) (x y ang : ℝ) :
    AgentState × Bool :=
  if pyTruthyNe pid s.player_id then
    match update_position s pid x y with
    | none => (s, false)
    | some s1 =>
        match update_rotation s1 pid ang with
        | none => (s1, false)
        | some s2 => (s2, true)
  else (s, true)

/-- SoccerRobot.handle_message: splits the frame on the pipe character and
dispatches on the type tag. The Bool is true when the branch ran to
completion and false when it raised (IndexError on a missing field,
ValueError on a non-numeric field, KeyError on an unknown player id); the
returned state holds every assignment made before the exception. Unknown
type tags fall to the default branch, which only prints. -/
def handle_message (s : AgentState) (message : String) : AgentState × Bool :=
  let parts := pySplit message '|'
  match parts.headI with
  | "POS" =>
      match parts.get? 1, (parts.get? 2).bind pyFloat,
            (parts.get? 3).bind pyFloat, (parts.get? 4).bind pyFloat with
      | some pid, some x, some y, some ang =>
          handle_pos s pid ((x : ℝ)) ((y : ℝ)) ((ang : ℝ))
      | _, _, _, _ => (s, false)
  | "BALL" =>
      match (parts.get? 1).bind pyFloat, (parts.get? 2).bind pyFloat,
            (parts.get? 3).bind pyFloat with
      | some x, some y, some z =>
          (update_ball_position s ((x : ℝ)) ((y : ℝ)) ((z : ℝ)), true)
      | _, _, _ => (s, false)
  | "ACK" => (s, true)
  | "MOVE" => (s, true)
  | "GOAL" => (s, true)
  | "KICK" => (s, true)
  | "GET" => (s, true)
  | "ROLE" =>
      match parts.get? 1 with
      | some r => ({ s with role := some r }, true)
      | none => (s, false)
  | "START" =>
      match (parts.get? 1).bind pyFloat with
      | some t => ({ s with paused := false, setup_time := ((t : ℝ)) }, true)
      | none => ({ s with paused := false }, false)
  | "INFO" =>
      match parts.get? 1, parts.get? 2 with
      | some tn, some pid =>
          match s.player_id with
          | none => ({ s with team_number := some tn, player_id := some pid }, true)
          | some _ =>
              ({ s with
                  player_states := dictSet s.player_states pid defaultPlayerRec,
                  player_team := dictSet s.player_team pid tn }, true)
      | _, _ => (s, false)
  | _ => (s, true)

/-- The inner dispatch loop of listen_for_server over complete frames: on
an exception inside handle_message the except/finally blocks run, the
loop ends and the socket is closed. Returns the final state and the
frames left unprocessed (empty when all frames were consumed). -/
def listen_for_server (s : AgentState) : List String → AgentState × List String
  | [] => (s, [])
  | m :: rest =>
      match handle_message s m with
      | (s1, true) => listen_for_server s1 rest
      | (s1, false) => (s1, rest)

/-- The type tags the agent dispatch recognises with a dedicated branch;
every other tag falls to the default print-only branch. -/
def agentKnownTag (t : String) : Bool :=
  t == "POS" || t == "BALL" || t == "ACK" || t == "MOVE" || t == "GOAL" ||
  t == "KICK" || t == "GET" || t == "ROLE" || t == "START" || t == "INFO"

/-! ## Geometry utilities -/

/-- The Python modulo operator on floats with a positive divisor: the
result a - b * floor(a / b) carries the sign of the divisor. -/
noncomputable def pymod (a b : ℝ) : ℝ := a - b * (⌊a / b⌋ : ℤ)

/-- calculate_angle_difference(angle1, angle2):
(angle2 - angle1 + pi) % (2 pi) - pi. -/
noncomputable def calculate_angle_difference (angle1 angle2 : ℝ) : ℝ :=
  pymod (angle2 - angle1 + Real.pi) (2 * Real.pi) - Real.pi

/-- math.radians: degrees to radians. -/
noncomputable def radians (d : ℝ) : ℝ := d * Real.pi / 180

/-- get_distance: Euclidean distance of two points in the xy-plane. -/
noncomputable def get_distance (point_one point_two : ℝ × ℝ) : ℝ :=
  Real.sqrt ((point_two.1 - point_one.1) ^ 2 + (point_two.2 - point_one.2) ^ 2)

/-- normalize_vector: divides both components by the Euclidean norm,
returning the vector unchanged when the norm is zero. -/
noncomputable def normalize_vector (v : ℝ × ℝ) : ℝ × ℝ :=
  let norm := Real.sqrt (v.1 ^ 2 + v.2 ^ 2)
  if norm ≠ 0 then (v.1 / norm, v.2 / norm) else v

/-- math.atan2(y, x): the angle of the point (x, y) in (-pi, pi]. -/
noncomputable def atan2 (y x : ℝ) : ℝ :=
  if 0 < x then Real.arctan (y / x)
  else if x < 0 then
    (if 0 ≤ y then Real.arctan (y / x) + Real.pi
     else Real.arctan (y / x) - Real.pi)
  else if 0 < y then Real.pi / 2
  else if y < 0 then -Real.pi / 2
  else 0

/-! ## Locomotion wrappers and navigation -/

/-- is_motion_over: true when nothing is playing or the playing motion has
finished; whether the playing motion has finished is a sensor reading and
enters as the isOver argument. -/
def is_motion_over (s : AgentState) (isOver : Bool) : Bool :=
  s.currentlyPlaying.isNone || isOver

/-- start_motion: stops the current motion when one is playing and it
differs from the new one, then plays the new motion and records it. The
command list holds the issued playback calls in order. -/
def start_motion (s : AgentState) (m : MotionName) : AgentState × List Cmd :=
  let stops :=
    match s.currentlyPlaying with
    | some cur => if cur ≠ m then [Cmd.stop cur] else []
    | none => []
  ({ s with currentlyPlaying := some m }, stops ++ [Cmd.play m])

/-- stop_motion: stops the playing motion when there is one and clears the
currentlyPlaying field. -/
def stop_motion (s : AgentState) : AgentState × List Cmd :=
  match s.currentlyPlaying with
  | some cur => ({ s with currentlyPlaying := none }, [Cmd.stop cur])
  | none => ({ s with currentlyPlaying := none }, [])

/-- stop_turn_and_start_moving: stop_motion, then state = "Moving". -/
def stop_turn_and_start_moving (s : AgentState) : AgentState × List Cmd :=
  let r := stop_motion s
  ({ r.1 with state := some "Moving" }, r.2)

/-- turn_to_direction(direction, threshold): computes the signed yaw
difference to the heading of the direction vector; below the threshold it
possibly transitions Turning to Moving and reports false (no turn
needed), otherwise it starts a fixed left or right turn when no motion is
playing and reports true. The current yaw and whether the playing motion
has finished are sensor readings and enter as arguments. -/
noncomputable def turn_to_direction (s : AgentState) (yaw : ℝ) (isOver : Bool)
    (direction : ℝ × ℝ) (threshold : ℝ) : AgentState × List Cmd × Bool :=
  let target_angle := atan2 direction.2 direction.1
  let angle_difference := calculate_angle_difference yaw target_angle
  if |angle_difference| < radians threshold then
    if s.state = some "Turning" then
      let r := stop_turn_and_start_moving s
      (r.1, r.2, false)
    else (s, [], false)
  else
    if is_motion_over s isOver then
      let r := start_motion s
        (if 0 < angle_difference then MotionName.turnLeft40
         else MotionName.turnRight40)
      (r.1, r.2, true)
    else (s, [], true)

/-- start_turn: records the target direction and sets state = "Turning". -/
def start_turn (s : AgentState) (direction : ℝ × ℝ) : AgentState :=
  { s with target_rotation := direction, state := some "Turning" }

/-- go_to(x_position, y_position, threshold): stores the target, reads the
GPS position (the px, py arguments); within the threshold it clears the
state and returns, otherwise it normalizes the direction to the target and
either starts a turn or sets state = "Moving" and plays the small forward
step. The command list holds the playback calls issued by the call. -/
noncomputable def go_to (s : AgentState) (px py yaw : ℝ) (isOver : Bool)
    (x_position y_position threshold : ℝ) : AgentState × List Cmd :=
  let s1 := { s with target_position := (x_position, y_position) }
  if get_distance (px, py) s1.target_position < threshold then
    ({ s1 with state := none }, [])
  else
    let direction := normalize_vector (x_position - px, y_position - py)
    let r := turn_to_direction s1 yaw isOver direction 2
    if r.2.2 then (start_turn r.1 direction, r.2.1)
    else
      let r2 := start_motion ({ r.1 with state := some "Moving" }) MotionName.smallForwards
      (r2.1, r.2.1 ++ r2.2)

/-- send_player_state(force): reads GPS position (px, py) and yaw, sends a
POS frame when forced, or the position moved more than 0.25 from the last
sent position, or the yaw moved more than 5 degrees from the last sent
rotation; on a send it records the new last position and rotation. The
Bool reports whether a frame was sent. -/
noncomputable def send_player_state (s : AgentState) (px py angle : ℝ)
    (force : Bool) : AgentState × Bool :=
  if force = true ∨ get_distance (px, py) s.last_position > 0.25 ∨
      |calculate_angle_difference angle s.last_rotation| > radians 5 then
    ({ s with last_position := (px, py), last_rotation := angle }, true)
  else (s, false)

/-! ## Fall detector -/

/-- The four corner forces of one foot, computed in has_fallen from the
force sensor vector (components x, y, z with z vertical) by the fixed
calibrated combinations z / 3.4 plus-minus 1.5 x plus-minus 1.15 y. -/
def corner_forces (fsv : ℚ × ℚ × ℚ) : List ℚ :=
  [fsv.2.2 / 3.4 + 1.5 * fsv.1 + 1.15 * fsv.2.1,
   fsv.2.2 / 3.4 + 1.5 * fsv.1 - 1.15 * fsv.2.1,
   fsv.2.2 / 3.4 - 1.5 * fsv.1 - 1.15 * fsv.2.1,
   fsv.2.2 / 3.4 - 1.5 * fsv.1 + 1.15 * fsv.2.1]

/-- The per-foot newtons total computed in has_fallen: the plain sum of
the four corner forces, with no clamping. -/
def newtons (fsv : ℚ × ℚ × ℚ) : ℚ := (corner_forces fsv).sum

/-- has_fallen(force_threshold = 5): returns False outright until the
current motion is over and the settle timer has elapsed (both sensor
readings, entering as arguments); afterwards reads the two foot force
vectors and reports fallen exactly when the summed corner forces of both
feet are strictly below the threshold. -/
def has_fallen (motionOver setupOver : Bool) (fsv0 fsv1 : ℚ × ℚ × ℚ)
    (force_threshold : ℚ) : Bool :=
  if !motionOver || !setupOver then false
  else decide (newtons fsv0 + newtons fsv1 < force_threshold)

/-- Modelled from the spec: section 4.3 describes the fall classifier as
clamping each of the eight corner forces to [0, 25] before summing; the
source clamps only in the diagnostic print_foot_sensors, not in
has_fallen. This definition follows the words of the spec so the two
classifiers can be compared. -/
def clamped_total (fsv0 fsv1 : ℚ × ℚ × ℚ) : ℚ :=
  ((corner_forces fsv0).map (fun c => max (min c 25) 0)).sum +
  ((corner_forces fsv1).map (fun c => max (min c 25) 0)).sum

/-! ## Stand-up check -/

/-- is_standup_motion_in_action: the Python condition
currentlyPlaying == standupFromBack or currentlyPlaying == standupFromFront
and not currentlyPlaying.isOver(), with the Python precedence in which the
conjunction binds tighter than the disjunction. Whether the playing motion
has finished is a sensor reading and enters as the isOver argument. -/
def is_standup_motion_in_action (currentlyPlaying : Option MotionName)
    (isOver : Bool) : Bool :=
  (currentlyPlaying == some MotionName.standupFromBack) ||
    ((currentlyPlaying == some MotionName.standupFromFront) && !isOver)

/-! ## Helper lemmas -/

/-- The Python float modulo with a positive divisor lands in [0, divisor). -/
lemma pymod_Ico (a b : ℝ) (hb : 0 < b) : pymod a b ∈ Set.Ico 0 b := by
  have key : b * (a / b) = a := by field_simp
  have h1 : ((⌊a / b⌋ : ℤ) : ℝ) ≤ a / b := Int.floor_le (a / b)
  have h2 : a / b < ((⌊a / b⌋ : ℤ) : ℝ) + 1 := Int.lt_floor_add_one (a / b)
  have h3 : b * ((⌊a / b⌋ : ℤ) : ℝ) ≤ b * (a / b) :=
    mul_le_mul_of_nonneg_left h1 (le_of_lt hb)
  have h4 : b * (a / b) < b * (((⌊a / b⌋ : ℤ) : ℝ) + 1) := (mul_lt_mul_left hb).mpr h2
  rw [key] at h3 h4
  unfold pymod
  simp only [Set.mem_Ico]
  constructor <;> nlinarith

/-- The wraparound difference of an angle with itself is zero. -/
lemma calc_angle_diff_self (a : ℝ) : calculate_angle_difference a a = 0 := by
  unfold calculate_angle_difference pymod
  have h1 : a - a + Real.pi = Real.pi := by ring
  rw [h1]
  have h2 : Real.pi / (2 * Real.pi) = 1 / 2 := by
    rw [eq_div_iff (by norm_num : (2 : ℝ) ≠ 0)]
    field_simp
    ring
  rw [h2]
  have h3 : (⌊(1 / 2 : ℝ)⌋ : ℤ) = 0 := by
    rw [Int.floor_eq_zero_iff]
    constructor <;> norm_num
  rw [h3]
  push_cast
  ring

/-- The distance of a point to itself is zero. -/
lemma get_distance_self (p : ℝ × ℝ) : get_distance p p = 0 := by
  simp [get_distance]

/-! ## Claim theorems -/

/-- C5 (amended): the wraparound angle difference
((target - current + pi) mod 2 pi) - pi always lies in the half-open
interval [-pi, pi) — closed on the left and open on the right, not the
other way around — and the difference of an angle with itself is 0. -/
theorem angle_difference_range :
    (∀ angle1 angle2 : ℝ,
        calculate_angle_difference angle1 angle2 ∈ Set.Ico (-Real.pi) Real.pi) ∧
    (∀ a : ℝ, calculate_angle_difference a a = 0) := by
  constructor
  · intro a1 a2
    have h := pymod_Ico (a2 - a1 + Real.pi) (2 * Real.pi) (by positivity)
    simp only [Set.mem_Ico] at h
    unfold calculate_angle_difference
    simp only [Set.mem_Ico]
    constructor <;> linarith [h.1, h.2]
  · exact calc_angle_diff_self

/-- C5 (counterexample): at current angle 0 and target pi the computed
difference is exactly -pi, which is outside the interval (-pi, pi] the
claim asserts. -/
theorem angle_difference_hits_neg_pi :
    calculate_angle_difference 0 Real.pi = -Real.pi ∧
    calculate_angle_difference 0 Real.pi ∉ Set.Ioc (-Real.pi) Real.pi := by
  have h : calculate_angle_difference 0 Real.pi = -Real.pi := by
    unfold calculate_angle_difference pymod
    have h1 : Real.pi - 0 + Real.pi = 2 * Real.pi := by ring
    rw [h1]
    have h2 : 2 * Real.pi / (2 * Real.pi) = 1 := div_self (by positivity)
    rw [h2]
    have h3 : (⌊(1 : ℝ)⌋ : ℤ) = 1 := Int.floor_one
    rw [h3]
    push_cast
    ring
  refine ⟨h, ?_⟩
  rw [h]
  simp [Set.mem_Ioc]

/-- C9 (confirmed): a go_to call made while the GPS position is already
within the threshold distance of the target stores the target, clears the
motion state and issues no playback command; every other field, the
currently playing motion included, is unchanged. -/
theorem go_to_within_threshold (s : AgentState) (px py yaw : ℝ) (isOver : Bool)
    (x y threshold : ℝ) (h : get_distance (px, py) (x, y) < threshold) :
    go_to s px py yaw isOver x y threshold =
      ({ s with target_position := (x, y), state := none }, []) := by
  simp only [go_to]
  split
  · rfl
  · rename_i hc
    exact (hc h).elim

/-- C9 (witness): a concrete call already at the target. -/
theorem go_to_within_threshold_witness :
    go_to initial_agent_state 0 0 0 true 0 0 0.2 =
      ({ initial_agent_state with target_position := (0, 0), state := none }, []) := by
  refine go_to_within_threshold initial_agent_state 0 0 0 true 0 0 0.2 ?_
  rw [get_distance_self]
  norm_num

/-- C10 (confirmed): with the Python precedence, the stand-up check is
true whenever the playing motion is stand-up-from-back, finished or not,
and for stand-up-from-front it is true exactly while that motion has not
finished. -/
theorem standup_check_precedence :
    (∀ over : Bool,
        is_standup_motion_in_action (some MotionName.standupFromBack) over = true) ∧
    (∀ over : Bool,
        is_standup_motion_in_action (some MotionName.standupFromFront) over = !over) := by
  decide

/-- C2 (amended): a fresh connection is placed in team 1 exactly when team
1 is strictly smaller, and in team 2 otherwise — so a tie sends it to team
2, not team 1; the id joins exactly one team, and when the sizes differed
by at most one before the assignment they still do afterwards. -/
theorem handle_client_connection_balances (s : ServerState) (pid : String)
    (conn : Nat) (h1 : pid ∉ s.team1) (h2 : pid ∉ s.team2)
    (hbal : s.team1.card ≤ s.team2.card + 1 ∧ s.team2.card ≤ s.team1.card + 1) :
    ((handle_client_connection s pid conn).2 = 1 ↔ s.team1.card < s.team2.card) ∧
    ((handle_client_connection s pid conn).2 = 2 ↔ s.team2.card ≤ s.team1.card) ∧
    (pid ∈ (handle_client_connection s pid conn).1.team1 ∨
      pid ∈ (handle_client_connection s pid conn).1.team2) ∧
    ¬(pid ∈ (handle_client_connection s pid conn).1.team1 ∧
      pid ∈ (handle_client_connection s pid conn).1.team2) ∧
    (handle_client_connection s pid conn).1.team1.card ≤
      (handle_client_connection s pid conn).1.team2.card + 1 ∧
    (handle_client_connection s pid conn).1.team2.card ≤
      (handle_client_connection s pid conn).1.team1.card + 1 := by
  by_cases hc : s.team1.card < s.team2.card
  · simp [handle_client_connection, hc, Finset.card_insert_of_not_mem, h1, h2]
    omega
  · simp [handle_client_connection, hc, Finset.card_insert_of_not_mem, h1, h2]
    omega

/-- C2 (witness): the first two connections from the empty server state:
the first lands in team 2 (tie), the second in team 1. -/
theorem handle_client_connection_balances_witness :
    (handle_client_connection initial_server_state ("a") 0).2 = 2 ∧
    (handle_client_connection
      (handle_client_connection initial_server_state ("a") 0).1 ("b") 1).2 = 1 := by
  have h := handle_client_connection_balances initial_server_state ("a") 0
    (by decide) (by decide) (by decide)
  have h2 := handle_client_connection_balances
    (handle_client_connection initial_server_state ("a") 0).1 ("b") 1
    (by decide) (by decide) (by decide)
  exact ⟨h.2.1.mpr (by decide), h2.1.mpr (by decide)⟩

/-- C2 (counterexample): from the empty state the team sizes are tied, and
the first accepted connection is assigned team 2, not team 1. -/
theorem tie_goes_to_team2 :
    initial_server_state.team1.card = initial_server_state.team2.card ∧
    (handle_client_connection initial_server_state ("a") 0).2 = 2 := by
  exact ⟨rfl, rfl⟩

/-- C8 (confirmed): broadcast with an excluded sender delivers the message
exactly once to every clients entry whose id differs from the sender,
never to the sender, and to nobody outside the clients dict. The
hypothesis that the dict keys are distinct is the Python dict invariant. -/
theorem broadcast_delivers_once (message : String)
    (clients : List (String × Nat)) (sender : String)
    (hnodup : (clients.map Prod.fst).Nodup) :
    (∀ p ∈ clients, p.1 ≠ sender → p ∈ broadcast message clients (some sender)) ∧
    (broadcast message clients (some sender)).Nodup ∧
    (∀ p ∈ clients, p.1 = sender → p ∉ broadcast message clients (some sender)) ∧
    (∀ p ∈ broadcast message clients (some sender), p ∈ clients) := by
  have hnd : clients.Nodup := hnodup.of_map
  refine ⟨?_, ?_, ?_, ?_⟩
  · intro p hp hne
    simp only [broadcast, List.mem_filter]
    exact ⟨hp, by simpa [bne_iff_ne] using hne⟩
  · exact hnd.filter _
  · intro p hp heq hmem
    simp only [broadcast, List.mem_filter] at hmem
    rw [bne_iff_ne] at hmem
    exact hmem.2 heq
  · intro p hp
    exact List.mem_of_mem_filter hp

/-- C8 (witness): a two-client dict with the sender excluded. -/
theorem broadcast_delivers_once_witness :
    ("b", 1) ∈ broadcast ("BALL|0|0|0") [("a", 0), ("b", 1)] (some ("a")) ∧
    (broadcast ("BALL|0|0|0") [("a", 0), ("b", 1)] (some ("a"))).Nodup ∧
    ("a", 0) ∉ broadcast ("BALL|0|0|0") [("a", 0), ("b", 1)] (some ("a")) := by
  have h := broadcast_delivers_once ("BALL|0|0|0") [("a", 0), ("b", 1)] ("a")
    (by decide)
  exact ⟨h.1 ("b", 1) (by decide) (by decide), h.2.1, h.2.2.1 ("a", 0) (by decide) rfl⟩

/-- C1 (amended): a frame whose type tag is unrecognized is logged and
dropped as a single line and both receive loops continue past it — on the
agent for any such frame, on the relay server provided the frame has at
least two pipe-separated fields (the server reads field 1 before
dispatching). -/
theorem unknown_tag_frame_dropped (s : AgentState) (line : String)
    (rest : List String)
    (h1 : agentKnownTag (pySplit line '|').headI = false) :
    handle_message s line = (s, true) ∧
    listen_for_server s (line :: rest) = listen_for_server s rest ∧
    (2 ≤ (pySplit line '|').length →
      server_handle_message line = true ∧
      handle_client_communication (line :: rest) =
        handle_client_communication rest) := by
  simp only [agentKnownTag, Bool.or_eq_false_iff, beq_eq_false_iff_ne, ne_eq] at h1
  obtain ⟨⟨⟨⟨⟨⟨⟨⟨⟨hp, hb⟩, ha⟩, hm⟩, hg⟩, hk⟩, hge⟩, hr⟩, hst⟩, hi⟩ := h1
  have hmsg : handle_message s line = (s, true) := by
    simp only [handle_message]
  have hlisten : listen_for_server s (line :: rest) = listen_for_server s rest := by
    simp only [listen_for_server, hmsg]
  refine ⟨hmsg, hlisten, fun h2 => ?_⟩
  have hsv : server_handle_message line = true := by
    simp only [server_handle_message]
    obtain ⟨a, ha2⟩ : ∃ a, (pySplit line '|').get? 1 = some a :=
      ⟨_, List.get?_eq_get (by omega)⟩
    rw [ha2]
  have hcomm : handle_client_communication (line :: rest) =
      handle_client_communication rest := by
    simp only [handle_client_communication, hsv, if_true]
  exact ⟨hsv, hcomm⟩

/-- C1 (witness): a pipe-less PING frame is dropped by the agent with the
loop going on, and a three-field SETUP frame (no branch on either side) is
dropped by the server with its loop going on. -/
theorem unknown_tag_frame_dropped_witness :
    handle_message initial_agent_state ("PING") = (initial_agent_state, true) ∧
    server_handle_message ("SETUP|1|x") = true := by
  have hping := unknown_tag_frame_dropped initial_agent_state ("PING") [] (by rfl)
  have hsetup := unknown_tag_frame_dropped initial_agent_state ("SETUP|1|x") []
    (by rfl)
  exact ⟨hping.1, (hsetup.2.2 (by decide)).1⟩

/-- C1 (counterexample): a POS frame with a non-numeric coordinate raises
ValueError inside the agent dispatch, which ends the receive loop — the
following BALL frame is never processed — and on the server a bare ACK
frame (one field) raises IndexError and ends that receive loop too. -/
theorem malformed_frame_kills_loop :
    listen_for_server initial_agent_state
        [("POS|1|abc|2.0|3.0"), ("BALL|1.0|2.0|3.0")] =
      (initial_agent_state, [("BALL|1.0|2.0|3.0")]) ∧
    handle_client_communication [("ACK"), ("GET|0")] = [("GET|0")] :=
  ⟨rfl, rfl⟩

/-- C3 (amended): has_fallen sums the eight corner forces with no
clamping (the sum telescopes to 4 / 3.4 times the two vertical
components, the shear terms cancelling), reports fallen strictly below
the threshold — a total exactly at the threshold is not fallen — and the
total is monotone in the corner forces. -/
theorem has_fallen_sums_without_clamping (mo so : Bool) (f0 f1 : ℚ × ℚ × ℚ)
    (th : ℚ) :
    has_fallen mo so f0 f1 th =
      (mo && so && decide (newtons f0 + newtons f1 < th)) ∧
    has_fallen mo so f0 f1 (newtons f0 + newtons f1) = false ∧
    newtons f0 + newtons f1 = 4 / 3.4 * (f0.2.2 + f1.2.2) ∧
    (∀ g0 g1 : ℚ × ℚ × ℚ,
      List.Forall₂ (fun a b => a ≤ b) (corner_forces g0 ++ corner_forces g1)
        (corner_forces f0 ++ corner_forces f1) →
      newtons g0 + newtons g1 ≤ newtons f0 + newtons f1) := by
  refine ⟨?_, ?_, ?_, ?_⟩
  · cases mo <;> cases so <;> simp [has_fallen]
  · cases mo <;> cases so <;> simp [has_fallen, lt_irrefl]
  · simp only [newtons, corner_forces, List.sum_cons, List.sum_nil]
    ring
  · intro g0 g1 h
    simp only [corner_forces, List.cons_append, List.nil_append,
      List.forall₂_cons, List.forall₂_nil_left_iff, and_true] at h
    obtain ⟨h1, h2, h3, h4, h5, h6, h7, h8⟩ := h
    simp only [newtons, corner_forces, List.sum_cons, List.sum_nil]
    linarith

/-- C3 (witness): concrete totals, and monotonicity applied to a pair of
inputs whose corner forces dominate pointwise. -/
theorem has_fallen_sums_without_clamping_witness :
    has_fallen true true (0, 0, 0) (0, 0, 0) 5 = true ∧
    newtons (0, 0, 0) + newtons (0, 0, 0) ≤
      newtons (0, 0, 3.4) + newtons (0, 0, 0) := by
  constructor
  · rw [(has_fallen_sums_without_clamping true true (0, 0, 0) (0, 0, 0) 5).1]
    norm_num [newtons, corner_forces]
  · refine (has_fallen_sums_without_clamping true true (0, 0, 3.4) (0, 0, 0) 5).2.2.2
      (0, 0, 0) (0, 0, 0) ?_
    norm_num [corner_forces, List.forall₂_cons]

/-- C3 (counterexample): at left-foot force vector (20, 0, 0) the corner
forces are 30, 30, -30, -30; their plain sum is 0, so has_fallen reports
fallen at threshold 5, while the clamped sum the claim describes is 50,
which is not below the threshold. -/
theorem has_fallen_ignores_clamping :
    has_fallen true true (20, 0, 0) (0, 0, 0) 5 = true ∧
    clamped_total (20, 0, 0) (0, 0, 0) = 50 ∧
    ¬ clamped_total (20, 0, 0) (0, 0, 0) < 5 := by
  refine ⟨?_, ?_, ?_⟩
  · norm_num [has_fallen, newtons, corner_forces]
  · norm_num [clamped_total, corner_forces, min_def, max_def]
  · norm_num [clamped_total, corner_forces, min_def, max_def]

/-- C4 (amended): send_player_state transmits exactly when forced, or the
position moved more than 0.25 from the last sent position, or the yaw
moved more than 5 degrees from the last sent rotation; the motion state is
not consulted — changing it changes neither the decision nor itself. -/
theorem send_player_state_condition (s : AgentState) (px py angle : ℝ)
    (force : Bool) :
    ((send_player_state s px py angle force).2 = true ↔
      (force = true ∨ get_distance (px, py) s.last_position > 0.25 ∨
        |calculate_angle_difference angle s.last_rotation| > radians 5)) ∧
    (∀ st : Option String,
      (send_player_state ({ s with state := st }) px py angle force).2 =
        (send_player_state s px py angle force).2 ∧
      (send_player_state ({ s with state := st }) px py angle force).1.state = st) := by
  constructor
  · by_cases hc : force = true ∨ get_distance (px, py) s.last_position > 0.25 ∨
        |calculate_angle_difference angle s.last_rotation| > radians 5
    · simp [send_player_state, hc]
    · simp [send_player_state, hc]
  · intro st
    by_cases hc : force = true ∨ get_distance (px, py) s.last_position > 0.25 ∨
        |calculate_angle_difference angle s.last_rotation| > radians 5
    · constructor <;> simp [send_player_state, hc]
    · constructor <;> simp [send_player_state, hc]

/-- C4 (counterexample): a forced transmission from state Idle, then a
motion state change to Moving with the pose unchanged: the next
unforced call sends nothing, though the claim requires a transmission on
a motionState change alone. -/
theorem motion_state_change_does_not_send :
    (send_player_state ({ initial_agent_state with state := some ("Idle") })
        0 0 0 true).2 = true ∧
    (send_player_state ({ initial_agent_state with state := some ("Idle") })
        0 0 0 true).1.state = some ("Idle") ∧
    (send_player_state
      ({ (send_player_state ({ initial_agent_state with state := some ("Idle") })
            0 0 0 true).1 with state := some ("Moving") }) 0 0 0 false).2 = false := by
  have e1 : send_player_state ({ initial_agent_state with state := some ("Idle") })
      0 0 0 true = (({ initial_agent_state with state := some ("Idle") }), true) := by
    unfold send_player_state
    rw [if_pos (Or.inl rfl)]
    rfl
  refine ⟨by rw [e1], by rw [e1], ?_⟩
  rw [e1]
  unfold send_player_state
  split
  · rename_i hcond
    exfalso
    rcases hcond with h | h | h
    · exact absurd h (by simp)
    · norm_num [get_distance_self, initial_agent_state] at h
    · have hpi := Real.pi_pos
      norm_num [calc_angle_diff_self, radians, initial_agent_state] at h
      all_goals nlinarith
  · rfl

/-- C6 (amended): the agent dispatch has no REVERT branch: a REVERT frame
falls to the unknown-type default, is logged and leaves the whole agent
state unchanged — no grace window is started, and a second REVERT extends
nothing. -/
theorem revert_frame_is_ignored (s : AgentState) :
    handle_message s ("REVERT|2.0") = (s, true) ∧
    handle_message s ("REVERT|1.0") = (s, true) :=
  ⟨rfl, rfl⟩

/-- C6 (counterexample): receiving REVERT with duration 2.0 from the
initial state, and then REVERT with duration 1.0, leaves the state
literally equal to the initial state: no field recording a grace window
changes, so no window is started or extended. -/
theorem revert_does_not_start_grace :
    handle_message initial_agent_state ("REVERT|2.0") = (initial_agent_state, true) ∧
    listen_for_server initial_agent_state [("REVERT|2.0"), ("REVERT|1.0")] =
      (initial_agent_state, []) :=
  ⟨rfl, rfl⟩

/-- C7 (amended): a POS frame naming an id absent from player_states is a
no-op only when the id compares equal to the agent's own id; otherwise
update_position raises KeyError before any assignment, and the error
escapes to the receive loop (the false flag). -/
theorem pos_unknown_id_raises (s : AgentState) (pid : String) (x y ang : ℝ)
    (h : s.player_states.lookup pid = none) :
    (pyTruthyNe pid s.player_id = true → handle_pos s pid x y ang = (s, false)) ∧
    (pyTruthyNe pid s.player_id = false → handle_pos s pid x y ang = (s, true)) := by
  constructor <;> intro hne <;> simp [handle_pos, hne, update_position, h]

/-- C7 (witness): a POS update for the unregistered id 42 on the initial
state raises and leaves the state unchanged. -/
theorem pos_unknown_id_raises_witness :
    handle_pos initial_agent_state ("42") 0 0 0 = (initial_agent_state, false) :=
  (pos_unknown_id_raises initial_agent_state ("42") 0 0 0 rfl).1 rfl

/-- C7 (counterexample): the KeyError from a POS frame naming the unknown
id 42 escapes handle_message (false flag) and terminates the receive
loop: the following BALL frame is never applied. -/
theorem pos_unknown_id_error_escapes :
    handle_message initial_agent_state ("POS|42|1.0|2.0|3.0") =
      (initial_agent_state, false) ∧
    listen_for_server initial_agent_state
        [("POS|42|1.0|2.0|3.0"), ("BALL|9.0|9.0|9.0")] =
      (initial_agent_state, [("BALL|9.0|9.0|9.0")]) :=
  ⟨rfl, rfl⟩

end SoccerGame
